import Mathlib

/-
Verification of the coherence-retry orchestrator in
`src/coherence_example.py` (functions `is_coherent`, `load_prompts`,
`ask_zai`).  The Python code is embedded shallowly: the mutable local
variables of `ask_zai` become explicit arguments of a structurally
recursive loop function, the completion client becomes a function from
(number of calls already made, message list) to `Except`-wrapped text,
and every message list handed to the client is recorded in a trace.
-/

/-- A chat message, as the Python dicts `{"role": ..., "content": ...}`. -/
structure Msg where
  role : String
  content : String
deriving DecidableEq, Repr

/-- The ordered message list sent to the completion client. -/
abbrev Conversation := List Msg

/-- Exceptions the embedded code can raise: the two uncaught Python errors
that `load_prompts` can produce on a pathological configuration, and an
arbitrary failure raised by the completion client. -/
inductive PyErr where
  | attributeError
  | typeError
  | clientError (e : String)
deriving DecidableEq, Repr

/-- The completion client (`client.chat.completions.create_async`):
given the number of completion calls already made in this invocation and
the message list for this call, it returns the answer text or raises. -/
def Client : Type := Nat → Conversation → Except PyErr String

/-- A Python dict of strings, observed through key lookup. -/
abbrev StrDict := String → Option String

/-- The ASCII whitespace characters stripped by Python `str.strip()`. -/
def pyIsSpace (c : Char) : Bool :=
  c = ' ' || c = '\t' || c = '\n' || c = '\r' || c = '\x0b' || c = '\x0c'

/-- Python `str.strip()`: remove leading and trailing whitespace.
(Embedded by structural recursion over the character list so that it is
kernel-computable; Lean's own `String.trim` is not.) -/
def pyStrip (s : String) : String :=
  ⟨((s.data.dropWhile pyIsSpace).reverse.dropWhile pyIsSpace).reverse⟩

/-- Python `str.endswith(post)`. -/
def pyEndsWith (s post : String) : Bool :=
  post.data.isSuffixOf s.data

/-- Python `dict` lookup on an association list; a later binding for the
same key overwrites an earlier one, as in a Python dict literal. -/
def dictLookup : List (String × String) → String → Option String
  | [], _ => none
  | p :: rest, k =>
    match dictLookup rest k with
    | some v => some v
    | none => if p.1 = k then some p.2 else none

/-- The hardcoded `default_prompts` table of `load_prompts`. -/
def default_prompts : List (String × String) :=
  [ ("system_prompt", "Você é um assistente de IA que prioriza a coerência lógica."),
    ("reprompt", "Sua resposta anterior está incompleta ou contraditória. Por favor, reformule mantendo coerência total."),
    ("critique_prompt", "A resposta anterior foi considerada insatisfatória. Critique-a, identificando as principais falhas de lógica ou coerência."),
    ("improve_prompt", "Com base na sua crítica, forneça uma nova resposta que seja completa, coerente e correta.") ]

/-- The observable states of the YAML configuration source, quotiented by
the branching of `load_prompts`:
* `fileMissing`  — `open` raises `FileNotFoundError` (caught);
* `parseError`   — `yaml.safe_load` raises `yaml.YAMLError` (caught);
* `nonMapping`   — the document parses but to `None` (empty file) or to a
  non-dict scalar, so `config.get` raises `AttributeError` (uncaught);
* `promptsNonMapping` — the document is a dict whose `prompts` key is
  bound to a non-dict value (for example `prompts:` left empty, giving
  `None`), so the merge `{**default_prompts, **prompts}` raises
  `TypeError` (uncaught);
* `mapping ps`   — the document is a dict and `config.get("prompts", {})`
  yields the string dict `ps` (the empty list when the key is absent). -/
inductive ConfigState where
  | fileMissing
  | parseError
  | nonMapping
  | promptsNonMapping
  | mapping (prompts : List (String × String))
deriving DecidableEq, Repr

/-- `load_prompts` of `src/src/coherence_example.py` (lines 75–106): read
the configuration, merge its `prompts` section over `default_prompts`
(Python `{**default_prompts, **prompts}`, observed through lookup: a key
bound in the section takes its section value, any other key its default
value), fall back to the full default table on `FileNotFoundError` or
`yaml.YAMLError`; any other exception escapes. -/
def load_prompts : ConfigState → Except PyErr StrDict
  | .fileMissing => .ok (dictLookup default_prompts)
  | .parseError => .ok (dictLookup default_prompts)
  | .nonMapping => .error .attributeError
  | .promptsNonMapping => .error .typeError
  | .mapping prompts =>
    .ok (fun k =>
      match dictLookup prompts k with
      | some v => some v
      | none => dictLookup default_prompts k)

/-- `is_coherent` of `src/src/coherence_example.py` (lines 108–113). -/
def is_coherent (text : String) : Bool :=
  if text = "" then false
  else if pyEndsWith (pyStrip text) "..." then false
  else true

/-- The initial message list of `ask_zai`: the system prompt from the
loaded prompt table, then the user question. `prompts["system_prompt"]`
cannot raise `KeyError` because the merge keeps every default key; the
`getD` branch is dead. -/
def initMsgs (prompts : StrDict) (question : String) : Conversation :=
  [⟨"system", (prompts "system_prompt").getD ""⟩,
   ⟨"user", question⟩]

/-- The `for attempt in range(max_retries + 1)` loop of `ask_zai`.
`remaining` is the number of loop iterations still to run (including the
current one), so the Python guard `attempt < max_retries` is
`remaining > 1`; `idx` is the number of completion calls already made;
`messages` and `answer` are the homonymous Python locals.  The result is
the list of message lists passed to the client, in order, paired with
either the propagated exception or the pair (final `answer`,
`is_final_answer_coherent`). -/
def askLoop (client : Client) (critique_prompt improve_prompt : String) :
    Nat → Nat → Conversation → String →
    List Conversation × Except PyErr (String × Bool)
  | 0, _, _, answer => ([], .ok (answer, false))
  | remaining + 1, idx, messages, _ =>
    match client idx messages with
    | .error e => ([messages], .error e)
    | .ok answer =>
      if is_coherent answer then ([messages], .ok (answer, true))
      else if remaining > 0 then
        let m2 := messages ++ [⟨"assistant", answer⟩, ⟨"user", critique_prompt⟩]
        match client (idx + 1) m2 with
        | .error e => ([messages, m2], .error e)
        | .ok critique =>
          let m3 := m2 ++ [⟨"assistant", critique⟩, ⟨"user", improve_prompt⟩]
          match client (idx + 2) m3 with
          | .error e => ([messages, m2, m3], .error e)
          | .ok answer2 =>
            if is_coherent answer2 then ([messages, m2, m3], .ok (answer2, true))
            else
              let rest := askLoop client critique_prompt improve_prompt
                remaining (idx + 3) m3 answer2
              (messages :: m2 :: m3 :: rest.1, rest.2)
      else ([messages], .ok (answer, false))

/-- The observable outcome of one `ask_zai` invocation: how many times
`load_prompts` ran, the message lists passed to the completion client in
call order, and the returned string or the escaped exception. -/
structure AskRun where
  promptLoads : Nat
  trace : List Conversation
  result : Except PyErr String
deriving Repr

/-- `ask_zai` of `src/src/coherence_example.py` (lines 115–171).
`max_retries` is an `Int` because the Python parameter may be negative;
`range(max_retries + 1)` then runs `(max_retries + 1).toNat` iterations. -/
def ask_zai (question : String) (client : Client) (max_retries : Int)
    (cfg : ConfigState) : AskRun :=
  if question = "" ∨ pyStrip question = "" then
    { promptLoads := 0, trace := [], result := .ok "" }
  else
    match load_prompts cfg with
    | .error e => { promptLoads := 1, trace := [], result := .error e }
    | .ok prompts =>
      let critique_prompt := (prompts "critique_prompt").getD ""
      let improve_prompt := (prompts "improve_prompt").getD ""
      let run := askLoop client critique_prompt improve_prompt
        (max_retries + 1).toNat 0 (initMsgs prompts question) ""
      { promptLoads := 1, trace := run.1,
        result := run.2.map (fun p => pyStrip p.1) }

/-- The four keys of the `default_prompts` table. -/
def promptKeys : List String :=
  ["system_prompt", "reprompt", "critique_prompt", "improve_prompt"]

/-- A client every answer of which arrives but is judged incoherent. -/
def AlwaysIncoherent (client : Client) : Prop :=
  ∀ i m, ∃ s, client i m = .ok s ∧ is_coherent s = false

/-- Concrete client whose every answer ends in an ellipsis, hence is
always incoherent. -/
def alwaysDotsClient : Client := fun _ _ => .ok "x..."

/-- Concrete client that is incoherent on its very first call and answers
coherently from the second call on. -/
def onceIncoherentClient : Client := fun i _ =>
  if i = 0 then .ok "Resposta truncada..."
  else .ok "Resposta coerente e completa."

/-- Concrete client that answers every call with whitespace only. -/
def blankClient : Client := fun _ _ => .ok "   "

/-- Concrete client whose every call raises. -/
def boomClient : Client := fun _ _ => .error (.clientError "boom")

/-- Concrete client that always answers the same coherent text. -/
def okClient : Client := fun _ _ => .ok "Uma resposta coerente."

/-- C3: `is_coherent` returns false on the empty string, returns false
when the trimmed text ends with the literal suffix "...", and returns
true otherwise; it is pure, so two evaluations on the same input agree. -/
theorem is_coherent_spec (text : String) :
    (text = "" → is_coherent text = false) ∧
    (pyEndsWith (pyStrip text) "..." = true → is_coherent text = false) ∧
    (text ≠ "" → pyEndsWith (pyStrip text) "..." = false → is_coherent text = true) ∧
    is_coherent text = is_coherent text := by
  refine ⟨?_, ?_, ?_, rfl⟩
  · intro h; simp [is_coherent, h]
  · intro h; simp [is_coherent, h]
  · intro h1 h2; simp [is_coherent, h1, h2]

/-- Witness for C3 at the spec's three concrete inputs. -/
theorem is_coherent_spec_witness :
    is_coherent "" = false ∧ is_coherent "abc..." = false ∧
      is_coherent "abc" = true :=
  ⟨(is_coherent_spec "").1 rfl,
   (is_coherent_spec "abc...").2.1 (by decide),
   (is_coherent_spec "abc").2.2.1 (by decide) (by decide)⟩

/-- C2: an empty or whitespace-only question short-circuits `ask_zai`:
zero prompt loads, zero completion calls, empty-string result, and no
exception. -/
theorem ask_zai_trivial_question (question : String) (client : Client)
    (max_retries : Int) (cfg : ConfigState) (h : pyStrip question = "") :
    ask_zai question client max_retries cfg =
      { promptLoads := 0, trace := [], result := .ok "" } := by
  unfold ask_zai
  rw [if_pos (Or.inr h)]

/-- Witness for C2 at a whitespace-only question. -/
theorem ask_zai_trivial_question_witness :
    (pyStrip "  " = "") ∧
      ask_zai "  " okClient 1 ConfigState.fileMissing =
        { promptLoads := 0, trace := [], result := .ok "" } :=
  ⟨by decide,
   ask_zai_trivial_question "  " okClient 1 ConfigState.fileMissing (by decide)⟩

/-- C6: evaluation of the code at the failing configuration state: a
document that parses to a non-mapping value (for example an empty file,
which `yaml.safe_load` turns into `None`) makes `config.get` raise an
uncaught `AttributeError`, so `load_prompts` propagates a failure instead
of falling back to the defaults. -/
theorem load_prompts_nonMapping_raises :
    load_prompts ConfigState.nonMapping = .error PyErr.attributeError := rfl

/-- C7 counterexample: a configuration whose prompts section binds
`system_prompt` to the empty string is accepted, and the returned
PromptSet binds `system_prompt` to `""`, which is not a non-empty
string. -/
theorem load_prompts_empty_value_cex :
    (load_prompts (ConfigState.mapping [("system_prompt", "")])).map
      (fun ps => ps "system_prompt") = .ok (some "") := rfl

/-- C7 (amended): whenever `load_prompts` returns, every one of the four
prompt keys resolves to a string, coming either from the configuration's
prompts section or from the hardcoded default table; a key the
configuration does not supply always receives its non-empty default. -/
theorem load_prompts_keys (cfg : ConfigState) (ps : StrDict)
    (h : load_prompts cfg = .ok ps) (k : String) (hk : k ∈ promptKeys) :
    ∃ v, ps k = some v ∧
      ((∃ sec, cfg = ConfigState.mapping sec ∧ dictLookup sec k = some v) ∨
        (dictLookup default_prompts k = some v ∧ v ≠ "")) := by
  cases cfg with
  | fileMissing =>
    simp only [load_prompts, Except.ok.injEq] at h
    subst h
    fin_cases hk <;> exact ⟨_, rfl, Or.inr ⟨rfl, by decide⟩⟩
  | parseError =>
    simp only [load_prompts, Except.ok.injEq] at h
    subst h
    fin_cases hk <;> exact ⟨_, rfl, Or.inr ⟨rfl, by decide⟩⟩
  | nonMapping => simp [load_prompts] at h
  | promptsNonMapping => simp [load_prompts] at h
  | mapping sec =>
    simp only [load_prompts, Except.ok.injEq] at h
    subst h
    cases hsec : dictLookup sec k with
    | some v => exact ⟨v, by simp [hsec], Or.inl ⟨sec, rfl, hsec⟩⟩
    | none =>
      fin_cases hk <;>
        exact ⟨_, by simp only [hsec]; rfl, Or.inr ⟨rfl, by decide⟩⟩

/-- Witness for C7 (amended) at the absent-file state and the key
`system_prompt`. -/
theorem load_prompts_keys_witness :
    ∃ v, dictLookup default_prompts "system_prompt" = some v ∧
      ((∃ sec, ConfigState.fileMissing = ConfigState.mapping sec ∧
          dictLookup sec "system_prompt" = some v) ∨
        (dictLookup default_prompts "system_prompt" = some v ∧ v ≠ "")) :=
  load_prompts_keys ConfigState.fileMissing (dictLookup default_prompts) rfl
    "system_prompt" (by decide)

/-- C10: a strictly negative retry budget makes `range(max_retries + 1)`
empty: the prompt set is still loaded, no completion call happens, and
the initial empty answer is returned. -/
theorem ask_zai_negative_retries (question : String) (client : Client)
    (r : Int) (cfg : ConfigState) (ps : StrDict)
    (hq : pyStrip question ≠ "") (hload : load_prompts cfg = .ok ps)
    (hr : r < 0) :
    ask_zai question client r cfg =
      { promptLoads := 1, trace := [], result := .ok "" } := by
  have hq0 : question ≠ "" := by
    intro h0; exact hq (by rw [h0]; decide)
  have hn : (r + 1).toNat = 0 := by omega
  unfold ask_zai
  rw [if_neg (by tauto), hload]
  simp [hn, askLoop, Except.map, pyStrip]

/-- Helper: on a non-trivial question with a successfully loaded prompt
set, `ask_zai` is the retry loop run on the initial two-message
conversation. -/
theorem ask_zai_nontrivial (question : String) (client : Client) (r : Int)
    (cfg : ConfigState) (ps : StrDict)
    (hq : pyStrip question ≠ "") (hload : load_prompts cfg = .ok ps) :
    ask_zai question client r cfg =
      { promptLoads := 1,
        trace := (askLoop client ((ps "critique_prompt").getD "")
          ((ps "improve_prompt").getD "") (r + 1).toNat 0
          (initMsgs ps question) "").1,
        result := (askLoop client ((ps "critique_prompt").getD "")
          ((ps "improve_prompt").getD "") (r + 1).toNat 0
          (initMsgs ps question) "").2.map (fun p => pyStrip p.1) } := by
  have hq0 : question ≠ "" := fun h0 => hq (by rw [h0]; decide)
  unfold ask_zai
  rw [if_neg (by tauto), hload]

/-- Helper: a run whose very first completion answer is judged coherent
stops after that single call and returns its stripped text. -/
theorem ask_zai_first_coherent (question : String) (client : Client)
    (r : Int) (cfg : ConfigState) (ps : StrDict) (s : String)
    (hq : pyStrip question ≠ "") (hload : load_prompts cfg = .ok ps)
    (hr : 0 ≤ r) (hc : client 0 (initMsgs ps question) = .ok s)
    (hcoh : is_coherent s = true) :
    (ask_zai question client r cfg).trace = [initMsgs ps question] ∧
    (ask_zai question client r cfg).result = .ok (pyStrip s) := by
  have hn : (r + 1).toNat = r.toNat + 1 := by omega
  rw [ask_zai_nontrivial question client r cfg ps hq hload]
  simp [hn, askLoop, hc, hcoh, Except.map]

/-- Witness for C10 at `max_retries = -1`. -/
theorem ask_zai_negative_retries_witness :
    (pyStrip "q" ≠ "") ∧ ((-1 : Int) < 0) ∧
      ask_zai "q" okClient (-1) ConfigState.fileMissing =
        { promptLoads := 1, trace := [], result := .ok "" } :=
  ⟨by decide, by decide,
   ask_zai_negative_retries "q" okClient (-1) ConfigState.fileMissing
     (dictLookup default_prompts) (by decide) rfl (by decide)⟩

/-- Helper: with a client whose every answer arrives but is judged
incoherent, `n + 1` loop iterations issue exactly `3n + 1` completion
calls, and the answer of the last call (made on the last traced message
list) is the string the loop hands back. -/
theorem askLoop_always_incoherent (client : Client) (cp ip : String)
    (h : AlwaysIncoherent client) :
    ∀ n idx messages a0,
      ∃ s mlast,
        (askLoop client cp ip (n + 1) idx messages a0).1.length = 3 * n + 1 ∧
        (askLoop client cp ip (n + 1) idx messages a0).1.getLast? = some mlast ∧
        client (idx + 3 * n) mlast = .ok s ∧
        (askLoop client cp ip (n + 1) idx messages a0).2 = .ok (s, false) := by
  intro n
  induction n with
  | zero =>
    intro idx messages a0
    obtain ⟨s, hc, hinc⟩ := h idx messages
    exact ⟨s, messages, by simp [askLoop, hc, hinc], by simp [askLoop, hc, hinc],
      by simpa using hc, by simp [askLoop, hc, hinc]⟩
  | succ n ih =>
    intro idx messages a0
    obtain ⟨s1, hc1, hi1⟩ := h idx messages
    obtain ⟨s2, hc2, _⟩ :=
      h (idx + 1) (messages ++ [⟨"assistant", s1⟩, ⟨"user", cp⟩])
    obtain ⟨s3, hc3, hi3⟩ :=
      h (idx + 2) (messages ++ [⟨"assistant", s1⟩, ⟨"user", cp⟩,
        ⟨"assistant", s2⟩, ⟨"user", ip⟩])
    obtain ⟨s, mlast, hlen, hlast, hcall, hres⟩ :=
      ih (idx + 3) (messages ++ [⟨"assistant", s1⟩, ⟨"user", cp⟩,
        ⟨"assistant", s2⟩, ⟨"user", ip⟩]) s3
    have htail :
        askLoop client cp ip (n + 1 + 1) idx messages a0 =
          (messages :: (messages ++ [⟨"assistant", s1⟩, ⟨"user", cp⟩]) ::
            (messages ++ [⟨"assistant", s1⟩, ⟨"user", cp⟩,
              ⟨"assistant", s2⟩, ⟨"user", ip⟩]) ::
            (askLoop client cp ip (n + 1) (idx + 3)
              (messages ++ [⟨"assistant", s1⟩, ⟨"user", cp⟩,
                ⟨"assistant", s2⟩, ⟨"user", ip⟩]) s3).1,
           (askLoop client cp ip (n + 1) (idx + 3)
              (messages ++ [⟨"assistant", s1⟩, ⟨"user", cp⟩,
                ⟨"assistant", s2⟩, ⟨"user", ip⟩]) s3).2) := by
      rw [askLoop]
      simp [hc1, hi1, hc2, hc3, hi3]
    have hne : (askLoop client cp ip (n + 1) (idx + 3)
        (messages ++ [⟨"assistant", s1⟩, ⟨"user", cp⟩,
          ⟨"assistant", s2⟩, ⟨"user", ip⟩]) s3).1 ≠ [] := by
      intro h0
      rw [h0] at hlast
      simp at hlast
    refine ⟨s, mlast, ?_, ?_, ?_, ?_⟩
    · rw [htail]; simp only [List.length_cons, hlen]; omega
    · rw [htail]
      obtain ⟨x, xs, hx⟩ := List.exists_cons_of_ne_nil hne
      rw [hx] at hlast ⊢
      simpa [List.getLast?_cons_cons] using hlast
    · have harith : idx + 3 * (n + 1) = idx + 3 + 3 * n := by omega
      rw [harith]
      exact hcall
    · rw [htail]
      exact hres

/-- C1: for `maxRetries = r ≥ 0` on a non-trivial question: an
always-incoherent client receives exactly `3r + 1` completion calls and
the last call's answer is returned stripped, without raising; a client
whose first answer is coherent receives exactly 1 call and that answer is
returned stripped. -/
theorem ask_zai_call_counts :
    (∀ (question : String) (client : Client) (r : Int) (cfg : ConfigState)
        (ps : StrDict),
      pyStrip question ≠ "" → load_prompts cfg = .ok ps → 0 ≤ r →
      AlwaysIncoherent client →
      ∃ s mlast,
        ((ask_zai question client r cfg).trace.length : Int) = 3 * r + 1 ∧
        (ask_zai question client r cfg).trace.getLast? = some mlast ∧
        client ((ask_zai question client r cfg).trace.length - 1) mlast = .ok s ∧
        (ask_zai question client r cfg).result = .ok (pyStrip s)) ∧
    (∀ (question : String) (client : Client) (r : Int) (cfg : ConfigState)
        (ps : StrDict) (s : String),
      pyStrip question ≠ "" → load_prompts cfg = .ok ps → 0 ≤ r →
      client 0 (initMsgs ps question) = .ok s → is_coherent s = true →
      (ask_zai question client r cfg).trace.length = 1 ∧
      (ask_zai question client r cfg).result = .ok (pyStrip s)) := by
  constructor
  · intro question client r cfg ps hq hload hr hinc
    have hn : (r + 1).toNat = r.toNat + 1 := by omega
    obtain ⟨s, mlast, hlen, hlast, hcall, hres⟩ :=
      askLoop_always_incoherent client ((ps "critique_prompt").getD "")
        ((ps "improve_prompt").getD "") hinc r.toNat 0 (initMsgs ps question) ""
    rw [ask_zai_nontrivial question client r cfg ps hq hload, hn]
    refine ⟨s, mlast, ?_, hlast, ?_, ?_⟩
    · rw [hlen]
      omega
    · rw [hlen]
      have h31 : 3 * r.toNat + 1 - 1 = 0 + 3 * r.toNat := by omega
      rw [h31]
      exact hcall
    · rw [hres]
      rfl
  · intro question client r cfg ps s hq hload hr hc hcoh
    obtain ⟨ht, hres⟩ :=
      ask_zai_first_coherent question client r cfg ps s hq hload hr hc hcoh
    exact ⟨by rw [ht]; rfl, hres⟩

/-- Witness for C1: the always-incoherent half at `r = 1` with the
ellipsis client, and the coherent-first-call half at `r = 1` with the
always-coherent client. -/
theorem ask_zai_call_counts_witness :
    (∃ s mlast,
      ((ask_zai "q" alwaysDotsClient 1 ConfigState.fileMissing).trace.length : Int) =
          3 * 1 + 1 ∧
      (ask_zai "q" alwaysDotsClient 1 ConfigState.fileMissing).trace.getLast? =
          some mlast ∧
      alwaysDotsClient
          ((ask_zai "q" alwaysDotsClient 1 ConfigState.fileMissing).trace.length - 1)
          mlast = .ok s ∧
      (ask_zai "q" alwaysDotsClient 1 ConfigState.fileMissing).result =
          .ok (pyStrip s)) ∧
    ((ask_zai "q" okClient 1 ConfigState.fileMissing).trace.length = 1 ∧
      (ask_zai "q" okClient 1 ConfigState.fileMissing).result =
        .ok (pyStrip "Uma resposta coerente.")) :=
  ⟨ask_zai_call_counts.1 "q" alwaysDotsClient 1 ConfigState.fileMissing
      (dictLookup default_prompts) (by decide) rfl (by decide)
      (fun _ _ => ⟨"x...", rfl, by decide⟩),
   ask_zai_call_counts.2 "q" okClient 1 ConfigState.fileMissing
      (dictLookup default_prompts) "Uma resposta coerente." (by decide) rfl
      (by decide) rfl (by decide)⟩

/-- Helper: every traced message list extends the starting conversation,
and each traced list is an append-extension (possibly trivial) of the
previous one. -/
theorem askLoop_trace_chain (client : Client) (cp ip : String) :
    ∀ n idx messages a0,
      List.Chain' (fun a b => a <+: b) (askLoop client cp ip n idx messages a0).1 ∧
      ∀ c ∈ (askLoop client cp ip n idx messages a0).1, messages <+: c := by
  intro n
  induction n with
  | zero => intro idx messages a0; simp [askLoop]
  | succ n ih =>
    intro idx messages a0
    have hpre4 : ∀ a b c d : Msg, messages <+: messages ++ [a, b, c, d] :=
      fun a b c d => ⟨[a, b, c, d], rfl⟩
    have hpre24 : ∀ a b c d : Msg,
        messages ++ [a, b] <+: messages ++ [a, b, c, d] :=
      fun a b c d => ⟨[c, d], by simp⟩
    cases hc : client idx messages with
    | error e =>
      constructor
      · simp [askLoop, hc]
      · intro c hcm
        simp [askLoop, hc] at hcm
        subst hcm
        exact List.prefix_refl _
    | ok s1 =>
      cases hco1 : is_coherent s1 with
      | true =>
        constructor
        · simp [askLoop, hc, hco1]
        · intro c hcm
          simp [askLoop, hc, hco1] at hcm
          subst hcm
          exact List.prefix_refl _
      | false =>
        rcases Nat.eq_zero_or_pos n with hn | hn
        · subst hn
          constructor
          · simp [askLoop, hc, hco1]
          · intro c hcm
            simp [askLoop, hc, hco1] at hcm
            subst hcm
            exact List.prefix_refl _
        · cases hc2 : client (idx + 1)
            (messages ++ [⟨"assistant", s1⟩, ⟨"user", cp⟩]) with
          | error e =>
            constructor
            · simp [askLoop, hc, hco1, hn, hc2, List.prefix_append]
            · intro c hcm
              simp [askLoop, hc, hco1, hn, hc2] at hcm
              rcases hcm with rfl | rfl
              · exact List.prefix_refl _
              · exact List.prefix_append _ _
          | ok s2 =>
            cases hc3 : client (idx + 2)
              (messages ++ [⟨"assistant", s1⟩, ⟨"user", cp⟩,
                ⟨"assistant", s2⟩, ⟨"user", ip⟩]) with
            | error e =>
              constructor
              · simp [askLoop, hc, hco1, hn, hc2, hc3, List.prefix_append,
                  hpre24]
              · intro c hcm
                simp [askLoop, hc, hco1, hn, hc2, hc3] at hcm
                rcases hcm with rfl | rfl | rfl
                · exact List.prefix_refl _
                · exact List.prefix_append _ _
                · exact hpre4 _ _ _ _
            | ok s3 =>
              cases hco3 : is_coherent s3 with
              | true =>
                constructor
                · simp [askLoop, hc, hco1, hn, hc2, hc3, hco3,
                    List.prefix_append, hpre24]
                · intro c hcm
                  simp [askLoop, hc, hco1, hn, hc2, hc3, hco3] at hcm
                  rcases hcm with rfl | rfl | rfl
                  · exact List.prefix_refl _
                  · exact List.prefix_append _ _
                  · exact hpre4 _ _ _ _
              | false =>
                have htail :
                    askLoop client cp ip (n + 1) idx messages a0 =
                      (messages ::
                        (messages ++ [⟨"assistant", s1⟩, ⟨"user", cp⟩]) ::
                        (messages ++ [⟨"assistant", s1⟩, ⟨"user", cp⟩,
                          ⟨"assistant", s2⟩, ⟨"user", ip⟩]) ::
                        (askLoop client cp ip n (idx + 3)
                          (messages ++ [⟨"assistant", s1⟩, ⟨"user", cp⟩,
                            ⟨"assistant", s2⟩, ⟨"user", ip⟩]) s3).1,
                       (askLoop client cp ip n (idx + 3)
                          (messages ++ [⟨"assistant", s1⟩, ⟨"user", cp⟩,
                            ⟨"assistant", s2⟩, ⟨"user", ip⟩]) s3).2) := by
                  rw [askLoop]
                  simp [hc, hco1, hn, hc2, hc3, hco3]
                obtain ⟨ihchain, ihmem⟩ :=
                  ih (idx + 3) (messages ++ [⟨"assistant", s1⟩, ⟨"user", cp⟩,
                    ⟨"assistant", s2⟩, ⟨"user", ip⟩]) s3
                rw [htail]
                constructor
                · refine List.chain'_cons.mpr ⟨List.prefix_append _ _, ?_⟩
                  refine List.chain'_cons.mpr ⟨hpre24 _ _ _ _, ?_⟩
                  refine List.chain'_cons'.mpr ⟨?_, ihchain⟩
                  intro y hy
                  exact ihmem y (List.mem_of_mem_head? hy)
                · intro c hcm
                  rcases List.mem_cons.mp hcm with rfl | hcm
                  · exact List.prefix_refl _
                  rcases List.mem_cons.mp hcm with rfl | hcm
                  · exact List.prefix_append _ _
                  rcases List.mem_cons.mp hcm with rfl | hcm
                  · exact hpre4 _ _ _ _
                  · exact (hpre4 _ _ _ _).trans (ihmem c hcm)

/-- C4 counterexample: with `maxRetries = 1` and an always-incoherent
client, four completion calls are made, and the message list passed to
the fourth call is identical to — not a strict append-extension of — the
one passed to the third: after an incoherent improve answer the next
attempt re-sends the same conversation without appending anything. -/
theorem ask_zai_strict_extension_cex :
    (ask_zai "q" alwaysDotsClient 1 ConfigState.fileMissing).trace.length = 4 ∧
    (ask_zai "q" alwaysDotsClient 1 ConfigState.fileMissing).trace[2]? =
      (ask_zai "q" alwaysDotsClient 1 ConfigState.fileMissing).trace[3]? ∧
    ¬ (∀ i, i + 1 <
          (ask_zai "q" alwaysDotsClient 1 ConfigState.fileMissing).trace.length →
        (ask_zai "q" alwaysDotsClient 1 ConfigState.fileMissing).trace[i]? ≠
          (ask_zai "q" alwaysDotsClient 1 ConfigState.fileMissing).trace[i + 1]?) :=
  ⟨by decide, by decide, fun h => h 2 (by decide) (by decide)⟩

/-- C4 (amended): within one invocation each message list passed to the
client is an order-preserving append-extension — not necessarily strict —
of the previous one, and every passed list starts with a role=system
message.  (Each call receives its own snapshot by construction: the
traced lists are immutable values.) -/
theorem ask_zai_trace_extension (question : String) (client : Client)
    (r : Int) (cfg : ConfigState) :
    List.Chain' (fun a b => a <+: b) (ask_zai question client r cfg).trace ∧
    ∀ c ∈ (ask_zai question client r cfg).trace,
      c.head?.map Msg.role = some "system" := by
  by_cases htriv : question = "" ∨ pyStrip question = ""
  · unfold ask_zai
    rw [if_pos htriv]
    simp
  · push_neg at htriv
    obtain ⟨hq0, hq⟩ := htriv
    cases hload : load_prompts cfg with
    | error e =>
      unfold ask_zai
      rw [if_neg (by tauto), hload]
      simp
    | ok ps =>
      rw [ask_zai_nontrivial question client r cfg ps hq hload]
      obtain ⟨hchain, hmem⟩ := askLoop_trace_chain client
        ((ps "critique_prompt").getD "") ((ps "improve_prompt").getD "")
        (r + 1).toNat 0 (initMsgs ps question) ""
      refine ⟨hchain, ?_⟩
      intro c hcm
      obtain ⟨l, hl⟩ := hmem c hcm
      rw [← hl]
      simp [initMsgs]

/-- Witness for C4 (amended) on a concrete always-incoherent run. -/
theorem ask_zai_trace_extension_witness :
    List.Chain' (fun a b => a <+: b)
      (ask_zai "q" alwaysDotsClient 1 ConfigState.fileMissing).trace ∧
    (initMsgs (dictLookup default_prompts) "q").head?.map Msg.role =
      some "system" :=
  ⟨(ask_zai_trace_extension "q" alwaysDotsClient 1 ConfigState.fileMissing).1,
   (ask_zai_trace_extension "q" alwaysDotsClient 1 ConfigState.fileMissing).2
     (initMsgs (dictLookup default_prompts) "q") (by decide)⟩

/-- C5: with `maxRetries = 1`, a client incoherent on its first answer
and coherent from then on: exactly 3 calls (initial, critique, improve),
the first call's message list has length 2, the third call's message list
has length 6, and the returned answer is the improve call's answer,
stripped. -/
theorem ask_zai_one_correction_scenario (question : String) (client : Client)
    (cfg : ConfigState) (ps : StrDict)
    (hq : pyStrip question ≠ "") (hload : load_prompts cfg = .ok ps)
    (hfirst : ∃ s, client 0 (initMsgs ps question) = .ok s ∧
      is_coherent s = false)
    (hrest : ∀ i m, 1 ≤ i → ∃ s, client i m = .ok s ∧ is_coherent s = true) :
    (ask_zai question client 1 cfg).trace.length = 3 ∧
    (∃ l0, (ask_zai question client 1 cfg).trace.head? = some l0 ∧
      l0.length = 2) ∧
    ∃ l2, (ask_zai question client 1 cfg).trace.getLast? = some l2 ∧
      l2.length = 6 ∧
      ∃ s, client 2 l2 = .ok s ∧
        (ask_zai question client 1 cfg).result = .ok (pyStrip s) := by
  obtain ⟨s1, hc1, hi1⟩ := hfirst
  obtain ⟨s2, hc2, _⟩ := hrest 1
    (initMsgs ps question ++ [⟨"assistant", s1⟩,
      ⟨"user", (ps "critique_prompt").getD ""⟩]) (by omega)
  obtain ⟨s3, hc3, hco3⟩ := hrest 2
    (initMsgs ps question ++ [⟨"assistant", s1⟩,
      ⟨"user", (ps "critique_prompt").getD ""⟩, ⟨"assistant", s2⟩,
      ⟨"user", (ps "improve_prompt").getD ""⟩]) (by omega)
  have hloop :
      askLoop client ((ps "critique_prompt").getD "")
        ((ps "improve_prompt").getD "") ((1 : Int) + 1).toNat 0
        (initMsgs ps question) "" =
      ([initMsgs ps question,
        initMsgs ps question ++ [⟨"assistant", s1⟩,
          ⟨"user", (ps "critique_prompt").getD ""⟩],
        initMsgs ps question ++ [⟨"assistant", s1⟩,
          ⟨"user", (ps "critique_prompt").getD ""⟩, ⟨"assistant", s2⟩,
          ⟨"user", (ps "improve_prompt").getD ""⟩]],
       .ok (s3, true)) := by
    have h2 : ((1 : Int) + 1).toNat = 1 + 1 := rfl
    rw [h2, askLoop]
    simp [hc1, hi1, hc2, hc3, hco3]
  rw [ask_zai_nontrivial question client 1 cfg ps hq hload, hloop]
  refine ⟨rfl, ⟨initMsgs ps question, rfl, rfl⟩, ?_⟩
  refine ⟨_, rfl, ?_, s3, hc3, rfl⟩
  simp [initMsgs]

/-- Witness for C5: the scripted once-incoherent client on the claim's
question. -/
theorem ask_zai_one_correction_scenario_witness :
    (ask_zai "Explain supervised vs unsupervised learning."
        onceIncoherentClient 1 ConfigState.fileMissing).trace.length = 3 ∧
    (∃ l0, (ask_zai "Explain supervised vs unsupervised learning."
        onceIncoherentClient 1 ConfigState.fileMissing).trace.head? = some l0 ∧
      l0.length = 2) ∧
    ∃ l2, (ask_zai "Explain supervised vs unsupervised learning."
        onceIncoherentClient 1 ConfigState.fileMissing).trace.getLast? =
          some l2 ∧
      l2.length = 6 ∧
      ∃ s, onceIncoherentClient 2 l2 = .ok s ∧
        (ask_zai "Explain supervised vs unsupervised learning."
          onceIncoherentClient 1 ConfigState.fileMissing).result =
            .ok (pyStrip s) :=
  ask_zai_one_correction_scenario
    "Explain supervised vs unsupervised learning." onceIncoherentClient
    ConfigState.fileMissing (dictLookup default_prompts) (by decide) rfl
    ⟨"Resposta truncada...", rfl, by decide⟩
    (fun i m hi => by
      cases i with
      | zero => omega
      | succ k => exact ⟨"Resposta coerente e completa.", rfl, by decide⟩)

/-- Helper: if the loop finishes with an exception, that exception is
exactly the one the client raised on the last call that was made (on the
last traced message list), and no further calls follow it. -/
theorem askLoop_error (client : Client) (cp ip : String) :
    ∀ n idx messages a0 e,
      (askLoop client cp ip n idx messages a0).2 = .error e →
      ∃ mlast,
        (askLoop client cp ip n idx messages a0).1.getLast? = some mlast ∧
        client (idx + ((askLoop client cp ip n idx messages a0).1.length - 1))
          mlast = .error e := by
  intro n
  induction n with
  | zero => intro idx messages a0 e herr; simp [askLoop] at herr
  | succ n ih =>
    intro idx messages a0 e herr
    cases hc : client idx messages with
    | error e1 =>
      rw [askLoop] at herr
      simp [hc] at herr
      subst herr
      refine ⟨messages, ?_, ?_⟩ <;> simp [askLoop, hc]
    | ok s1 =>
      cases hco1 : is_coherent s1 with
      | true =>
        rw [askLoop] at herr
        simp [hc, hco1] at herr
      | false =>
        rcases Nat.eq_zero_or_pos n with hn | hn
        · subst hn
          rw [askLoop] at herr
          simp [hc, hco1] at herr
        · cases hc2 : client (idx + 1)
            (messages ++ [⟨"assistant", s1⟩, ⟨"user", cp⟩]) with
          | error e1 =>
            rw [askLoop] at herr
            simp [hc, hco1, hn, hc2] at herr
            subst herr
            refine ⟨messages ++ [⟨"assistant", s1⟩, ⟨"user", cp⟩], ?_, ?_⟩ <;>
              simp [askLoop, hc, hco1, hn, hc2]
          | ok s2 =>
            cases hc3 : client (idx + 2)
              (messages ++ [⟨"assistant", s1⟩, ⟨"user", cp⟩,
                ⟨"assistant", s2⟩, ⟨"user", ip⟩]) with
            | error e1 =>
              rw [askLoop] at herr
              simp [hc, hco1, hn, hc2, hc3] at herr
              subst herr
              refine ⟨messages ++ [⟨"assistant", s1⟩, ⟨"user", cp⟩,
                ⟨"assistant", s2⟩, ⟨"user", ip⟩], ?_, ?_⟩ <;>
                simp [askLoop, hc, hco1, hn, hc2, hc3]
            | ok s3 =>
              cases hco3 : is_coherent s3 with
              | true =>
                rw [askLoop] at herr
                simp [hc, hco1, hn, hc2, hc3, hco3] at herr
              | false =>
                have htail :
                    askLoop client cp ip (n + 1) idx messages a0 =
                      (messages ::
                        (messages ++ [⟨"assistant", s1⟩, ⟨"user", cp⟩]) ::
                        (messages ++ [⟨"assistant", s1⟩, ⟨"user", cp⟩,
                          ⟨"assistant", s2⟩, ⟨"user", ip⟩]) ::
                        (askLoop client cp ip n (idx + 3)
                          (messages ++ [⟨"assistant", s1⟩, ⟨"user", cp⟩,
                            ⟨"assistant", s2⟩, ⟨"user", ip⟩]) s3).1,
                       (askLoop client cp ip n (idx + 3)
                          (messages ++ [⟨"assistant", s1⟩, ⟨"user", cp⟩,
                            ⟨"assistant", s2⟩, ⟨"user", ip⟩]) s3).2) := by
                  rw [askLoop]
                  simp [hc, hco1, hn, hc2, hc3, hco3]
                rw [htail] at herr ⊢
                obtain ⟨mlast, hlast, hcall⟩ := ih (idx + 3)
                  (messages ++ [⟨"assistant", s1⟩, ⟨"user", cp⟩,
                    ⟨"assistant", s2⟩, ⟨"user", ip⟩]) s3 e herr
                have hne : (askLoop client cp ip n (idx + 3)
                    (messages ++ [⟨"assistant", s1⟩, ⟨"user", cp⟩,
                      ⟨"assistant", s2⟩, ⟨"user", ip⟩]) s3).1 ≠ [] := by
                  intro h0
                  rw [h0] at hlast
                  simp at hlast
                obtain ⟨x, xs, hx⟩ := List.exists_cons_of_ne_nil hne
                refine ⟨mlast, ?_, ?_⟩
                · rw [hx] at hlast ⊢
                  simpa [List.getLast?_cons_cons] using hlast
                · have hlen1 : 1 ≤ (askLoop client cp ip n (idx + 3)
                      (messages ++ [⟨"assistant", s1⟩, ⟨"user", cp⟩,
                        ⟨"assistant", s2⟩, ⟨"user", ip⟩]) s3).1.length := by
                    rw [hx]; simp
                  have harith : idx + ((messages ::
                      (messages ++ [⟨"assistant", s1⟩, ⟨"user", cp⟩]) ::
                      (messages ++ [⟨"assistant", s1⟩, ⟨"user", cp⟩,
                        ⟨"assistant", s2⟩, ⟨"user", ip⟩]) ::
                      (askLoop client cp ip n (idx + 3)
                        (messages ++ [⟨"assistant", s1⟩, ⟨"user", cp⟩,
                          ⟨"assistant", s2⟩, ⟨"user", ip⟩]) s3).1).length - 1) =
                      idx + 3 + ((askLoop client cp ip n (idx + 3)
                        (messages ++ [⟨"assistant", s1⟩, ⟨"user", cp⟩,
                          ⟨"assistant", s2⟩, ⟨"user", ip⟩]) s3).1.length - 1) := by
                    simp only [List.length_cons]
                    omega
                  rw [harith]
                  exact hcall

/-- C8: whenever `ask_zai` ends in an exception (the prompt set having
loaded), that exception is exactly the one the client raised on the final
completion call that was made: the orchestrator catches no client
failure, adds no call after a failure, and retries only on the coherence
verdict. -/
theorem ask_zai_error_propagation (question : String) (client : Client)
    (r : Int) (cfg : ConfigState) (ps : StrDict) (e : PyErr)
    (hload : load_prompts cfg = .ok ps)
    (herr : (ask_zai question client r cfg).result = .error e) :
    ∃ mlast,
      (ask_zai question client r cfg).trace.getLast? = some mlast ∧
      client ((ask_zai question client r cfg).trace.length - 1) mlast =
        .error e := by
  by_cases htriv : question = "" ∨ pyStrip question = ""
  · rw [ask_zai_trivial_question question client r cfg] at herr
    · simp at herr
    · rcases htriv with h0 | h0
      · rw [h0]; decide
      · exact h0
  · push_neg at htriv
    obtain ⟨hq0, hq⟩ := htriv
    rw [ask_zai_nontrivial question client r cfg ps hq hload] at herr ⊢
    have hloop : (askLoop client ((ps "critique_prompt").getD "")
        ((ps "improve_prompt").getD "") (r + 1).toNat 0
        (initMsgs ps question) "").2 = .error e := by
      cases hres : (askLoop client ((ps "critique_prompt").getD "")
          ((ps "improve_prompt").getD "") (r + 1).toNat 0
          (initMsgs ps question) "").2 with
      | error e1 => simp [hres, Except.map] at herr; rw [herr]
      | ok p => simp [hres, Except.map] at herr
    obtain ⟨mlast, hlast, hcall⟩ := askLoop_error client
      ((ps "critique_prompt").getD "") ((ps "improve_prompt").getD "")
      (r + 1).toNat 0 (initMsgs ps question) "" e hloop
    exact ⟨mlast, hlast, by simpa using hcall⟩

/-- Witness for C8: a client that raises on its first call. -/
theorem ask_zai_error_propagation_witness :
    ∃ mlast,
      (ask_zai "q" boomClient 2 ConfigState.fileMissing).trace.getLast? =
        some mlast ∧
      boomClient ((ask_zai "q" boomClient 2 ConfigState.fileMissing).trace.length - 1)
        mlast = .error (PyErr.clientError "boom") :=
  ask_zai_error_propagation "q" boomClient 2 ConfigState.fileMissing
    (dictLookup default_prompts) (PyErr.clientError "boom") rfl rfl

/-- C9: a non-empty answer consisting only of whitespace is judged
coherent (it is non-empty and its stripped form does not end with "..."),
so a client that returns such an answer on the first call is accepted
after exactly one call, and `ask_zai` returns the empty string once the
answer is stripped. -/
theorem whitespace_answer_accepted :
    (∀ s : String, s ≠ "" → pyStrip s = "" → is_coherent s = true) ∧
    (∀ (question : String) (client : Client) (r : Int) (cfg : ConfigState)
        (ps : StrDict) (s : String),
      pyStrip question ≠ "" → load_prompts cfg = .ok ps → 0 ≤ r →
      client 0 (initMsgs ps question) = .ok s → s ≠ "" → pyStrip s = "" →
      (ask_zai question client r cfg).trace.length = 1 ∧
      (ask_zai question client r cfg).result = .ok "") := by
  have hco : ∀ s : String, s ≠ "" → pyStrip s = "" → is_coherent s = true := by
    intro s hne hstrip
    unfold is_coherent
    rw [if_neg hne, hstrip]
    decide
  refine ⟨hco, ?_⟩
  intro question client r cfg ps s hq hload hr hc hne hstrip
  obtain ⟨ht, hres⟩ := ask_zai_first_coherent question client r cfg ps s hq
    hload hr hc (hco s hne hstrip)
  refine ⟨by rw [ht]; rfl, ?_⟩
  rw [hres, hstrip]

/-- Witness for C9: the all-blank answer `"   "` on question `"q"`. -/
theorem whitespace_answer_accepted_witness :
    is_coherent " " = true ∧
    ((ask_zai "q" blankClient 1 ConfigState.fileMissing).trace.length = 1 ∧
      (ask_zai "q" blankClient 1 ConfigState.fileMissing).result = .ok "") :=
  ⟨whitespace_answer_accepted.1 " " (by decide) (by decide),
   whitespace_answer_accepted.2 "q" blankClient 1 ConfigState.fileMissing
     (dictLookup default_prompts) "   " (by decide) rfl (by decide) rfl
     (by decide) (by decide)⟩
